import Mathlib

/-
Verification of the automatic_yt_shorts pipeline (src/main.py) against its
natural-language specification.

The embedding models Python numeric behaviour over exact rationals:
`float` values become `ℚ`, Python `/` on a zero denominator becomes an
explicit `ZeroDivisionError` value, `int(x)` becomes truncation toward
zero, and `//` on integers becomes floor division (`Int.fdiv`).
-/

/-- Error values a pipeline step can produce.  `zeroDivisionError` is
Python's built-in exception raised by `/` on a zero denominator.
`emptyImageSet` and `invalidDimensions` are the error kinds named by the
specification; no code path in src/main.py constructs them, they exist
here so that statements can distinguish them from what the code does. -/
inductive PyError where
  | zeroDivisionError
  | emptyImageSet
  | invalidDimensions
deriving DecidableEq

/-- Python `int(x)` applied to a float: truncation toward zero. -/
def pyInt (q : ℚ) : ℤ :=
  if 0 ≤ q then ⌊q⌋ else ⌈q⌉

/-- Python `max(a, b)` on two floats: the second argument wins only when
it is strictly greater.  Agrees with Mathlib's `max` (`pyMax_eq_max`). -/
def pyMax (a b : ℚ) : ℚ :=
  if a < b then b else a

lemma pyMax_eq_max (a b : ℚ) : pyMax a b = max a b := by
  unfold pyMax
  rcases lt_or_ge a b with h | h
  · rw [if_pos h, max_eq_right h.le]
  · rw [if_neg (not_lt.mpr h), max_eq_left h]

lemma pyMax_self (a : ℚ) : pyMax a a = a := by
  simp [pyMax]

/-- A crop rectangle `(left, top, right, bottom)` as passed to
`Image.crop` / `clip.crop` in src/main.py. -/
structure CropBox where
  x0 : ℤ
  y0 : ℤ
  x1 : ℤ
  y1 : ℤ
deriving DecidableEq

/-- The geometry data computed for one source/target size pair:
the scale factor, the scaled ("resized") size, and the centered crop box. -/
structure GeomPlan where
  scale_factor : ℚ
  new_size : ℤ × ℤ
  crop_box : CropBox
deriving DecidableEq

/-- The scale-to-fill geometry computation of `process_inputs`
(src/main.py lines 84-102), parameterized by the target size (the source
instantiates it with `TARGET_RESOLUTION`): ratios `target/source`, scale
factor `max`, scaled size via `int(...)` truncation, centered crop offsets
via Python floor division `// 2`, and crop corner `offset + target`.
Python raises `ZeroDivisionError` at the ratio divisions when a source
dimension is zero; no other dimension check exists in the code. -/
def processGeometry (sw sh tw th : ℤ) : Except PyError GeomPlan :=
  if sw = 0 then Except.error PyError.zeroDivisionError
  else if sh = 0 then Except.error PyError.zeroDivisionError
  else
    let scaleFactor : ℚ := pyMax ((tw : ℚ) / (sw : ℚ)) ((th : ℚ) / (sh : ℚ))
    let newW : ℤ := pyInt ((sw : ℚ) * scaleFactor)
    let newH : ℤ := pyInt ((sh : ℚ) * scaleFactor)
    let left : ℤ := (newW - tw).fdiv 2
    let top : ℤ := (newH - th).fdiv 2
    Except.ok
      { scale_factor := scaleFactor
        new_size := (newW, newH)
        crop_box := ⟨left, top, left + tw, top + th⟩ }

/-- The scale-to-fill geometry computation of `export_video`
(src/main.py lines 210-235), parameterized by the target size (the source
instantiates it with `FORMAT_CONFIGS[format_ratio]`): the same ratio,
max, `int(...)` and `// 2` steps applied to `clip.w`/`clip.h`, with the
crop corners `x_center + target_width`, `y_center + target_height`. -/
def exportGeometry (sw sh tw th : ℤ) : Except PyError GeomPlan :=
  if sw = 0 then Except.error PyError.zeroDivisionError
  else if sh = 0 then Except.error PyError.zeroDivisionError
  else
    let scaleFactor : ℚ := pyMax ((tw : ℚ) / (sw : ℚ)) ((th : ℚ) / (sh : ℚ))
    let newW : ℤ := pyInt ((sw : ℚ) * scaleFactor)
    let newH : ℤ := pyInt ((sh : ℚ) * scaleFactor)
    let left : ℤ := (newW - tw).fdiv 2
    let top : ℤ := (newH - th).fdiv 2
    Except.ok
      { scale_factor := scaleFactor
        new_size := (newW, newH)
        crop_box := ⟨left, top, left + tw, top + th⟩ }

/-- The geometry algorithm exactly as the specification words it
(spec section 4.1): `round` for the scaled size (the code instead uses
`int(...)` truncation), `floor((scaled - target)/2)` for the offsets, and
an `InvalidDimensions` failure on any non-positive dimension.  This
definition follows the spec's words and exists to be compared with
`processGeometry`, which is translated from the source. -/
def specFillGeometry (sw sh tw th : ℤ) : Except PyError GeomPlan :=
  if sw ≤ 0 ∨ sh ≤ 0 ∨ tw ≤ 0 ∨ th ≤ 0 then Except.error PyError.invalidDimensions
  else
    let scaleFactor : ℚ := pyMax ((tw : ℚ) / (sw : ℚ)) ((th : ℚ) / (sh : ℚ))
    let newW : ℤ := round ((sw : ℚ) * scaleFactor)
    let newH : ℤ := round ((sh : ℚ) * scaleFactor)
    let left : ℤ := (newW - tw).fdiv 2
    let top : ℤ := (newH - th).fdiv 2
    Except.ok
      { scale_factor := scaleFactor
        new_size := (newW, newH)
        crop_box := ⟨left, top, left + tw, top + th⟩ }

/-- `TARGET_RESOLUTION` from src/main.py line 21. -/
def TARGET_RESOLUTION : ℤ × ℤ := (1920, 1080)

deriving instance DecidableEq for Except

lemma pyInt_of_nonneg (q : ℚ) (h : 0 ≤ q) : pyInt q = ⌊q⌋ := by
  simp [pyInt, h]

/-- C2: for strictly positive source and target sizes the fill-geometry
computation of `process_inputs` returns a plan whose crop box has exactly
the target dimensions and whose scale factor is
`max (targetW/sourceW) (targetH/sourceH)`. -/
theorem processGeometry_fills_target (sw sh tw th : ℤ)
    (hsw : 0 < sw) (hsh : 0 < sh) (htw : 0 < tw) (hth : 0 < th) :
    ∃ p : GeomPlan, processGeometry sw sh tw th = Except.ok p ∧
      p.crop_box.x1 - p.crop_box.x0 = tw ∧
      p.crop_box.y1 - p.crop_box.y0 = th ∧
      p.scale_factor = max ((tw : ℚ) / (sw : ℚ)) ((th : ℚ) / (sh : ℚ)) := by
  have h1 : ¬ sw = 0 := by omega
  have h2 : ¬ sh = 0 := by omega
  simp only [processGeometry, h1, h2, if_false]
  exact ⟨_, rfl, by simp, by simp, pyMax_eq_max _ _⟩

/-- Witness for C2 at source 100×200, target 1920×1080. -/
theorem processGeometry_fills_target_witness :
    ∃ p : GeomPlan, processGeometry 100 200 1920 1080 = Except.ok p ∧
      p.crop_box.x1 - p.crop_box.x0 = 1920 ∧
      p.crop_box.y1 - p.crop_box.y0 = 1080 ∧
      p.scale_factor = max ((1920 : ℚ) / (100 : ℚ)) ((1080 : ℚ) / (200 : ℚ)) :=
  processGeometry_fills_target 100 200 1920 1080 (by norm_num) (by norm_num)
    (by norm_num) (by norm_num)

/-- C9: the geometry computation of the Multi-Format Exporter
(`export_video`) is the same function as the one of the Asset Processor
(`process_inputs`): on every identical source/target size pair they
produce identical scale factors, scaled sizes and crop boxes. -/
theorem exportGeometry_eq_processGeometry (sw sh tw th : ℤ) :
    exportGeometry sw sh tw th = processGeometry sw sh tw th := rfl

/-- Counterexample for C4: at source 2×2 and target 0×4 (a dimension that
is not strictly positive) the code returns a geometry plan instead of
signaling `InvalidDimensions`. -/
theorem processGeometry_nonpositive_target_ok :
    processGeometry 2 2 0 4 = Except.ok ⟨2, (4, 4), ⟨2, 0, 2, 4⟩⟩ ∧
    processGeometry 2 2 0 4 ≠ Except.error PyError.invalidDimensions := by
  have h : processGeometry 2 2 0 4 = Except.ok ⟨2, (4, 4), ⟨2, 0, 2, 4⟩⟩ := by
    norm_num [processGeometry, pyMax, pyInt, Int.fdiv]
  refine ⟨h, ?_⟩
  rw [h]
  simp

/-- C4 as amended: the fill-geometry computation performs no dimension
validation and never signals `InvalidDimensions`.  With a zero source
dimension it fails with Python's division-by-zero error, raised at the
ratio division itself; with any other dimensions — including non-positive
target dimensions — it returns a geometry plan. -/
theorem processGeometry_no_dimension_validation (sw sh tw th : ℤ) :
    processGeometry sw sh tw th ≠ Except.error PyError.invalidDimensions
    ∧ (sw ≠ 0 → sh ≠ 0 → ∃ p, processGeometry sw sh tw th = Except.ok p)
    ∧ ((sw = 0 ∨ sh = 0) → processGeometry sw sh tw th
          = Except.error PyError.zeroDivisionError) := by
  by_cases h1 : sw = 0
  · refine ⟨by simp [processGeometry, h1], fun hc => absurd h1 hc, fun _ => by simp [processGeometry, h1]⟩
  · by_cases h2 : sh = 0
    · refine ⟨by simp [processGeometry, h1, h2], fun _ hc => absurd h2 hc,
        fun _ => by simp [processGeometry, h1, h2]⟩
    · refine ⟨by simp [processGeometry, h1, h2],
        fun _ _ => by
          simp only [processGeometry, h1, h2, if_false]
          exact ⟨_, rfl⟩,
        fun hor => ?_⟩
      rcases hor with h | h
      · exact absurd h h1
      · exact absurd h h2

/-- Witness for the amended C4: a plan is produced for target width 0,
and a zero source width raises the division-by-zero error. -/
theorem processGeometry_no_dimension_validation_witness :
    (∃ p, processGeometry 7 5 0 4 = Except.ok p)
    ∧ processGeometry 0 5 4 4 = Except.error PyError.zeroDivisionError :=
  ⟨(processGeometry_no_dimension_validation 7 5 0 4).2.1 (by decide) (by decide),
   (processGeometry_no_dimension_validation 0 5 4 4).2.2 (Or.inl rfl)⟩

/-- Counterexample for C5: at source 10×14 and target 4×4 the code's
geometry (scaled size via `int(...)` truncation) differs from the
specification's algorithm (scaled size via `round`): the code scales to
4×5 and crops `(0,0,4,4)`, the spec's words give 4×6 and `(0,1,4,5)`. -/
theorem processGeometry_differs_from_spec_round :
    processGeometry 10 14 4 4 = Except.ok ⟨2/5, (4, 5), ⟨0, 0, 4, 4⟩⟩
    ∧ specFillGeometry 10 14 4 4 = Except.ok ⟨2/5, (4, 6), ⟨0, 1, 4, 5⟩⟩
    ∧ processGeometry 10 14 4 4 ≠ specFillGeometry 10 14 4 4 := by
  have hc : processGeometry 10 14 4 4 = Except.ok ⟨2/5, (4, 5), ⟨0, 0, 4, 4⟩⟩ := by
    norm_num [processGeometry, pyMax, pyInt, Int.fdiv]
  have hs : specFillGeometry 10 14 4 4 = Except.ok ⟨2/5, (4, 6), ⟨0, 1, 4, 5⟩⟩ := by
    norm_num [specFillGeometry, pyMax, round_eq, Int.fdiv]
  refine ⟨hc, hs, ?_⟩
  rw [hc, hs]
  simp

/-- C5 as amended: for positive dimensions the code computes
`scale = max (targetW/sourceW) (targetH/sourceH)`, the scaled size by
truncating `source*scale` toward zero (Python `int(...)`, i.e. floor on
these non-negative values — not `round`), the crop offsets by floor
division `(scaled - target) // 2`, and the far corners `offset + target`;
when the source equals the target the scale is 1 and the crop box is the
full image. -/
theorem processGeometry_algorithm_trunc (sw sh tw th : ℤ)
    (hsw : 0 < sw) (hsh : 0 < sh) (htw : 0 < tw) (hth : 0 < th) :
    processGeometry sw sh tw th = Except.ok
      { scale_factor := max ((tw : ℚ) / (sw : ℚ)) ((th : ℚ) / (sh : ℚ))
        new_size :=
          (⌊(sw : ℚ) * max ((tw : ℚ) / (sw : ℚ)) ((th : ℚ) / (sh : ℚ))⌋,
           ⌊(sh : ℚ) * max ((tw : ℚ) / (sw : ℚ)) ((th : ℚ) / (sh : ℚ))⌋)
        crop_box :=
          ⟨(⌊(sw : ℚ) * max ((tw : ℚ) / (sw : ℚ)) ((th : ℚ) / (sh : ℚ))⌋ - tw).fdiv 2,
           (⌊(sh : ℚ) * max ((tw : ℚ) / (sw : ℚ)) ((th : ℚ) / (sh : ℚ))⌋ - th).fdiv 2,
           (⌊(sw : ℚ) * max ((tw : ℚ) / (sw : ℚ)) ((th : ℚ) / (sh : ℚ))⌋ - tw).fdiv 2 + tw,
           (⌊(sh : ℚ) * max ((tw : ℚ) / (sw : ℚ)) ((th : ℚ) / (sh : ℚ))⌋ - th).fdiv 2 + th⟩ }
    ∧ processGeometry sw sh sw sh = Except.ok ⟨1, (sw, sh), ⟨0, 0, sw, sh⟩⟩ := by
  have hsw' : ¬ sw = 0 := by omega
  have hsh' : ¬ sh = 0 := by omega
  have hswQ : (0 : ℚ) < (sw : ℚ) := by exact_mod_cast hsw
  have hshQ : (0 : ℚ) < (sh : ℚ) := by exact_mod_cast hsh
  have htwQ : (0 : ℚ) < (tw : ℚ) := by exact_mod_cast htw
  have hmax : (0 : ℚ) < max ((tw : ℚ) / (sw : ℚ)) ((th : ℚ) / (sh : ℚ)) :=
    lt_of_lt_of_le (div_pos htwQ hswQ) (le_max_left _ _)
  have hW : (0 : ℚ) ≤ (sw : ℚ) * max ((tw : ℚ) / (sw : ℚ)) ((th : ℚ) / (sh : ℚ)) :=
    le_of_lt (mul_pos hswQ hmax)
  have hH : (0 : ℚ) ≤ (sh : ℚ) * max ((tw : ℚ) / (sw : ℚ)) ((th : ℚ) / (sh : ℚ)) :=
    le_of_lt (mul_pos hshQ hmax)
  constructor
  · simp only [processGeometry, hsw', hsh', if_false]
    rw [pyMax_eq_max, pyInt_of_nonneg _ hW, pyInt_of_nonneg _ hH]
  · have h1 : (sw : ℚ) / (sw : ℚ) = 1 := div_self hswQ.ne'
    have h2 : (sh : ℚ) / (sh : ℚ) = 1 := div_self hshQ.ne'
    simp only [processGeometry, hsw', hsh', if_false, h1, h2, pyMax_self, mul_one]
    rw [pyInt_of_nonneg _ (le_of_lt hswQ), pyInt_of_nonneg _ (le_of_lt hshQ)]
    simp [Int.floor_intCast, sub_self, Int.zero_fdiv]

/-- Witness for the amended C5: with source equal to target (10×14) the
scale is 1 and the crop box is the full image. -/
theorem processGeometry_algorithm_trunc_witness :
    processGeometry 10 14 10 14 = Except.ok ⟨1, (10, 14), ⟨0, 0, 10, 14⟩⟩ :=
  (processGeometry_algorithm_trunc 10 14 4 4 (by norm_num) (by norm_num)
    (by norm_num) (by norm_num)).2

/-- One image's metadata as produced by `process_inputs`
(src/main.py lines 104-110): path, crop box and scale factor (the `size`
field is the constant `TARGET_RESOLUTION` and is not read downstream). -/
structure ImageMeta where
  path : String
  crop_box : CropBox
  scale_factor : ℚ
deriving DecidableEq

/-- One timeline entry as built by `sync_assets`
(src/main.py lines 125-132). -/
structure TimelineEntry where
  image : String
  start_time : ℚ
  end_time : ℚ
  duration : ℚ
  crop_box : CropBox
  scale_factor : ℚ
deriving DecidableEq

/-- The entry-building loop of `sync_assets` (src/main.py lines 121-134):
`current_time` starts at 0.0 and advances by `time_per_image` per entry;
each entry records the running `current_time` as `start_time` and
`current_time + time_per_image` as `end_time`. -/
def timelineFrom (timePerImage currentTime : ℚ) :
    List ImageMeta → List TimelineEntry
  | [] => []
  | m :: rest =>
      { image := m.path
        start_time := currentTime
        end_time := currentTime + timePerImage
        duration := timePerImage
        crop_box := m.crop_box
        scale_factor := m.scale_factor }
        :: timelineFrom timePerImage (currentTime + timePerImage) rest

/-- `sync_assets` (src/main.py lines 114-143): divides the narration
duration by the image count — Python raises `ZeroDivisionError` here when
the list is empty, there is no explicit guard — and builds the timeline
list that is then serialized to `output/sync_log.txt`. -/
def syncAssets (audioDuration : ℚ) (imageMetadata : List ImageMeta) :
    Except PyError (List TimelineEntry) :=
  if imageMetadata.length = 0 then Except.error PyError.zeroDivisionError
  else
    Except.ok
      (timelineFrom (audioDuration / (imageMetadata.length : ℚ)) 0 imageMetadata)

lemma timelineFrom_length (tpi : ℚ) (ms : List ImageMeta) :
    ∀ cur, (timelineFrom tpi cur ms).length = ms.length := by
  induction ms with
  | nil => intro cur; rfl
  | cons m rest ih => intro cur; simp [timelineFrom, ih]

lemma timelineFrom_getElem (tpi : ℚ) (ms : List ImageMeta) :
    ∀ (cur : ℚ) (i : ℕ),
      (timelineFrom tpi cur ms)[i]? = ms[i]?.map (fun m =>
        { image := m.path
          start_time := cur + i * tpi
          end_time := cur + (i + 1) * tpi
          duration := tpi
          crop_box := m.crop_box
          scale_factor := m.scale_factor }) := by
  induction ms with
  | nil => intro cur i; simp [timelineFrom]
  | cons m rest ih =>
      intro cur i
      cases i with
      | zero => simp [timelineFrom]
      | succ i =>
          simp only [timelineFrom, List.getElem?_cons_succ]
          rw [ih (cur + tpi) i]
          cases h : rest[i]? with
          | none => simp
          | some a =>
              simp only [Option.map_some', Option.some.injEq, TimelineEntry.mk.injEq,
                and_true, true_and]
              refine ⟨by push_cast; ring, by push_cast; ring⟩

lemma timelineFrom_duration_of_mem (tpi : ℚ) (ms : List ImageMeta) :
    ∀ cur e, e ∈ timelineFrom tpi cur ms → e.duration = tpi := by
  induction ms with
  | nil => intro cur e h; simp [timelineFrom] at h
  | cons m rest ih =>
      intro cur e h
      simp only [timelineFrom, List.mem_cons] at h
      rcases h with h1 | h2
      · rw [h1]
      · exact ih (cur + tpi) e h2

lemma timelineFrom_map_image (tpi : ℚ) (ms : List ImageMeta) :
    ∀ cur, (timelineFrom tpi cur ms).map (fun e => e.image)
      = ms.map (fun m => m.path) := by
  induction ms with
  | nil => intro cur; rfl
  | cons m rest ih => intro cur; simp [timelineFrom, ih]

lemma timelineFrom_sum_duration (tpi : ℚ) (ms : List ImageMeta) :
    ∀ cur, ((timelineFrom tpi cur ms).map (fun e => e.duration)).sum
      = ms.length * tpi := by
  induction ms with
  | nil => intro cur; simp [timelineFrom]
  | cons m rest ih =>
      intro cur
      simp [timelineFrom, ih]
      ring

/-- C1: for every narration duration `D > 0` and non-empty metadata list,
`sync_assets` builds a timeline with exactly one entry per image in source
order, each of duration `D / N`, contiguous and non-overlapping, starting
at 0, ending at `D`, with durations summing to `D` (all equalities exact
in the rational model, hence within any floating tolerance). -/
theorem syncAssets_timeline_properties (audioDuration : ℚ) (meta : List ImageMeta)
    (hD : 0 < audioDuration) (hne : meta ≠ []) :
    ∃ tl, syncAssets audioDuration meta = Except.ok tl
      ∧ tl.length = meta.length
      ∧ tl.map (fun e => e.image) = meta.map (fun m => m.path)
      ∧ (∀ e ∈ tl, e.duration = audioDuration / (meta.length : ℚ))
      ∧ (∀ e, tl[0]? = some e → e.start_time = 0)
      ∧ (∀ i e₁ e₂, tl[i]? = some e₁ → tl[i + 1]? = some e₂ →
            e₁.end_time = e₂.start_time)
      ∧ (∀ e, tl[meta.length - 1]? = some e → e.end_time = audioDuration)
      ∧ (tl.map (fun e => e.duration)).sum = audioDuration := by
  have hlen : ¬ meta.length = 0 := fun h => hne (List.length_eq_zero.mp h)
  have hlenQ : ((meta.length : ℚ)) ≠ 0 := Nat.cast_ne_zero.mpr hlen
  refine ⟨timelineFrom (audioDuration / (meta.length : ℚ)) 0 meta,
    ?_, ?_, ?_, ?_, ?_, ?_, ?_, ?_⟩
  · unfold syncAssets
    rw [if_neg hlen]
  · exact timelineFrom_length _ meta 0
  · exact timelineFrom_map_image _ meta 0
  · intro e he
    exact timelineFrom_duration_of_mem _ meta 0 e he
  · intro e he
    rw [timelineFrom_getElem] at he
    rcases Option.map_eq_some'.mp he with ⟨m, _, rfl⟩
    push_cast
    ring
  · intro i e₁ e₂ h1 h2
    rw [timelineFrom_getElem] at h1 h2
    rcases Option.map_eq_some'.mp h1 with ⟨m₁, _, rfl⟩
    rcases Option.map_eq_some'.mp h2 with ⟨m₂, _, rfl⟩
    push_cast
    ring
  · intro e he
    rw [timelineFrom_getElem] at he
    rcases Option.map_eq_some'.mp he with ⟨m, _, rfl⟩
    show (0 : ℚ) + ((meta.length - 1 : ℕ) + 1) * (audioDuration / (meta.length : ℚ))
      = audioDuration
    have hcast : ((meta.length - 1 : ℕ) : ℚ) + 1 = (meta.length : ℚ) := by
      have : 1 ≤ meta.length := Nat.one_le_iff_ne_zero.mpr hlen
      push_cast [Nat.cast_sub this]
      ring
    rw [zero_add, hcast, mul_comm, div_mul_cancel₀ _ hlenQ]
  · rw [timelineFrom_sum_duration]
    rw [mul_comm, div_mul_cancel₀ _ hlenQ]

/-- A concrete three-image metadata list used to witness C1. -/
def demoMeta3 : List ImageMeta :=
  [⟨"a.jpg", ⟨0, 0, 1920, 1080⟩, 1⟩,
   ⟨"b.jpg", ⟨0, 0, 1920, 1080⟩, 1⟩,
   ⟨"c.jpg", ⟨0, 0, 1920, 1080⟩, 1⟩]

/-- Witness for C1: the spec's own scenario, three images and a
9-second narration. -/
theorem syncAssets_timeline_properties_witness :
    (0 : ℚ) < 9 ∧ demoMeta3 ≠ [] ∧
    (∃ tl, syncAssets 9 demoMeta3 = Except.ok tl
      ∧ tl.length = demoMeta3.length
      ∧ tl.map (fun e => e.image) = demoMeta3.map (fun m => m.path)
      ∧ (∀ e ∈ tl, e.duration = 9 / (demoMeta3.length : ℚ))
      ∧ (∀ e, tl[0]? = some e → e.start_time = 0)
      ∧ (∀ i e₁ e₂, tl[i]? = some e₁ → tl[i + 1]? = some e₂ →
            e₁.end_time = e₂.start_time)
      ∧ (∀ e, tl[demoMeta3.length - 1]? = some e → e.end_time = 9)
      ∧ (tl.map (fun e => e.duration)).sum = 9) :=
  ⟨by norm_num, by simp [demoMeta3],
    syncAssets_timeline_properties 9 demoMeta3 (by norm_num) (by simp [demoMeta3])⟩

/-- C10: the contiguity of consecutive entries is exact, not merely
within tolerance: the first entry starts at exactly 0 and
`entry[i].end_time` equals `entry[i+1].start_time` exactly, both being
the same accumulated value `current_time + time_per_image` (in the code
the very same float computation, here the same rational). -/
theorem syncAssets_exact_contiguity (audioDuration : ℚ) (meta : List ImageMeta)
    (hne : meta ≠ []) :
    ∃ tl, syncAssets audioDuration meta = Except.ok tl
      ∧ (∀ e, tl[0]? = some e → e.start_time = 0)
      ∧ (∀ i e₁ e₂, tl[i]? = some e₁ → tl[i + 1]? = some e₂ →
            e₁.end_time = e₂.start_time) := by
  have hlen : ¬ meta.length = 0 := fun h => hne (List.length_eq_zero.mp h)
  refine ⟨timelineFrom (audioDuration / (meta.length : ℚ)) 0 meta, ?_, ?_, ?_⟩
  · unfold syncAssets
    rw [if_neg hlen]
  · intro e he
    rw [timelineFrom_getElem] at he
    rcases Option.map_eq_some'.mp he with ⟨m, _, rfl⟩
    push_cast
    ring
  · intro i e₁ e₂ h1 h2
    rw [timelineFrom_getElem] at h1 h2
    rcases Option.map_eq_some'.mp h1 with ⟨m₁, _, rfl⟩
    rcases Option.map_eq_some'.mp h2 with ⟨m₂, _, rfl⟩
    push_cast
    ring

/-- A concrete two-image metadata list used to witness C10. -/
def demoMeta2 : List ImageMeta :=
  [⟨"p.png", ⟨0, 0, 1920, 1080⟩, 2⟩,
   ⟨"q.png", ⟨0, 0, 1920, 1080⟩, 2⟩]

/-- Witness for C10 with two images and a 7-second narration. -/
theorem syncAssets_exact_contiguity_witness :
    demoMeta2 ≠ [] ∧
    (∃ tl, syncAssets 7 demoMeta2 = Except.ok tl
      ∧ (∀ e, tl[0]? = some e → e.start_time = 0)
      ∧ (∀ i e₁ e₂, tl[i]? = some e₁ → tl[i + 1]? = some e₂ →
            e₁.end_time = e₂.start_time)) :=
  ⟨by simp [demoMeta2], syncAssets_exact_contiguity 7 demoMeta2 (by simp [demoMeta2])⟩

/-- Counterexample for C3: on an empty image list `sync_assets` fails
with Python's `ZeroDivisionError`, raised by the unguarded division
`audio_duration / num_images` itself — not with the specification's
`EmptyImageSet` error (no such check exists in the code). -/
theorem syncAssets_empty_not_emptyImageSet :
    syncAssets 10 [] = Except.error PyError.zeroDivisionError
    ∧ PyError.zeroDivisionError ≠ PyError.emptyImageSet := by
  exact ⟨rfl, by decide⟩

/-- C3 as amended: building a timeline from an empty image list does fail
for every narration duration, but via the unguarded division by the image
count (Python `ZeroDivisionError`); there is no explicit `EmptyImageSet`
guard before the division. -/
theorem syncAssets_empty_always_zeroDivision (audioDuration : ℚ) :
    syncAssets audioDuration [] = Except.error PyError.zeroDivisionError := rfl

/-- `VALID_IMAGE_FORMATS` from src/main.py line 12. -/
def VALID_IMAGE_FORMATS : List String := [".jpg", ".png", ".jpeg"]

/-- `VALID_AUDIO_FORMATS` from src/main.py line 13. -/
def VALID_AUDIO_FORMATS : List String := [".mp3", ".wav"]

/-- The error messages `validate_assets` can emit, one constructor per
distinct message string in src/main.py lines 23-62. -/
inductive ValidationError where
  | assetsDirNotFound
  | noNarration
  | narrationUnsupported
  | noMusic
  | musicUnsupported
  | noImages
  | outputDirNotFound
deriving DecidableEq

/-- What `validate_assets` observes about the filesystem: whether the
`assets` and `output` directories exist, and the file-name suffixes
returned by its three globs (`narration.*`, `background_music.*`, `*`).
The function reads nothing else about the environment. -/
structure FsState where
  assetsDirExists : Bool
  narrationSuffixes : List String
  musicSuffixes : List String
  assetsFiles : List String
  outputDirExists : Bool

/-- The narration check of `validate_assets` (src/main.py lines 35-41):
one error when no `narration.*` file exists, one when none of the found
files has a recognized audio suffix (lowercased), else nothing. -/
def narrationCheck (s : FsState) : List ValidationError :=
  if s.narrationSuffixes = [] then [ValidationError.noNarration]
  else if (s.narrationSuffixes.any fun f =>
      VALID_AUDIO_FORMATS.contains f.toLower) = false then
    [ValidationError.narrationUnsupported]
  else []

/-- The background-music check of `validate_assets`
(src/main.py lines 43-49), same shape as the narration check. -/
def musicCheck (s : FsState) : List ValidationError :=
  if s.musicSuffixes = [] then [ValidationError.noMusic]
  else if (s.musicSuffixes.any fun f =>
      VALID_AUDIO_FORMATS.contains f.toLower) = false then
    [ValidationError.musicUnsupported]
  else []

/-- The image check of `validate_assets` (src/main.py lines 51-55):
one error when no file in the assets directory has a recognized image
suffix (lowercased). -/
def imageCheck (s : FsState) : List ValidationError :=
  if s.assetsFiles.filter (fun f => VALID_IMAGE_FORMATS.contains f.toLower) = [] then
    [ValidationError.noImages]
  else []

/-- `validate_assets` (src/main.py lines 23-62): early single-error
return when the `assets` directory is missing; the narration, music and
image checks each append at most one error to the running list (the list
is their concatenation, in check order); a missing `output` directory
triggers an early return carrying only that one error — discarding the
accumulated list (the checks are pure, so testing the output directory
before or after running them is the same function); otherwise the result
is `(len(errors) == 0, errors)`. -/
def validateAssets (s : FsState) : Bool × List ValidationError :=
  if s.assetsDirExists = false then
    (false, [ValidationError.assetsDirNotFound])
  else if s.outputDirExists = false then
    (false, [ValidationError.outputDirNotFound])
  else
    ((narrationCheck s ++ musicCheck s ++ imageCheck s).isEmpty,
      narrationCheck s ++ musicCheck s ++ imageCheck s)

/-- The gate in `main` (src/main.py lines 248-253): processing runs
exactly when `validate_assets` reported `is_valid`. -/
def mainRunsPipeline (s : FsState) : Bool :=
  (validateAssets s).1

/-- A state in which the narration is missing and the output directory
does not exist; used as the counterexample for C6. -/
def brokenState : FsState :=
  ⟨true, [], [".mp3"], [".mp3", ".jpg"], false⟩

/-- Counterexample for C6: with the narration missing and the output
directory absent, `validate_assets` reports only the output-directory
error; the detected missing-narration problem is discarded, so the
result is not the complete list of all detected problems. -/
theorem validateAssets_drops_errors_when_output_missing :
    validateAssets brokenState = (false, [ValidationError.outputDirNotFound])
    ∧ brokenState.narrationSuffixes = []
    ∧ ValidationError.noNarration ∉ (validateAssets brokenState).2 := by
  refine ⟨by decide, rfl, by decide⟩

lemma mem_narrationCheck (e : ValidationError) (s : FsState) :
    e ∈ narrationCheck s ↔
      (e = ValidationError.noNarration ∧ s.narrationSuffixes = [])
      ∨ (e = ValidationError.narrationUnsupported ∧ s.narrationSuffixes ≠ [] ∧
          (s.narrationSuffixes.any fun f =>
            VALID_AUDIO_FORMATS.contains f.toLower) = false) := by
  unfold narrationCheck
  split_ifs with h1 h2 <;> simp_all

lemma mem_musicCheck (e : ValidationError) (s : FsState) :
    e ∈ musicCheck s ↔
      (e = ValidationError.noMusic ∧ s.musicSuffixes = [])
      ∨ (e = ValidationError.musicUnsupported ∧ s.musicSuffixes ≠ [] ∧
          (s.musicSuffixes.any fun f =>
            VALID_AUDIO_FORMATS.contains f.toLower) = false) := by
  unfold musicCheck
  split_ifs with h1 h2 <;> simp_all

lemma mem_imageCheck (e : ValidationError) (s : FsState) :
    e ∈ imageCheck s ↔
      (e = ValidationError.noImages ∧
        s.assetsFiles.filter (fun f => VALID_IMAGE_FORMATS.contains f.toLower) = []) := by
  unfold imageCheck
  split_ifs with h1 <;> simp_all

lemma validateAssets_snd_of_dirs (s : FsState) (ha : s.assetsDirExists = true)
    (ho : s.outputDirExists = true) :
    (validateAssets s).2 = narrationCheck s ++ musicCheck s ++ imageCheck s := by
  simp [validateAssets, ha, ho]

lemma validateAssets_invalid_of_errors (u : FsState)
    (hu : (validateAssets u).2 ≠ []) : (validateAssets u).1 = false := by
  unfold validateAssets at hu ⊢
  split_ifs at hu ⊢ <;> simp_all [List.isEmpty_iff]

/-- C6 as amended: when the assets and output directories both exist,
`validate_assets` reports the complete list of detected asset problems
(missing narration, missing music, unsupported formats, missing images)
in a single result, not stopping at the first; when the output directory
is missing the accumulated problems are discarded (see the
counterexample).  In every state, the pipeline performs no processing
when validation reports any error. -/
theorem validateAssets_complete_when_dirs_exist (s t : FsState)
    (ha : s.assetsDirExists = true) (ho : s.outputDirExists = true) :
    (ValidationError.noNarration ∈ (validateAssets s).2 ↔ s.narrationSuffixes = [])
    ∧ (ValidationError.narrationUnsupported ∈ (validateAssets s).2 ↔
        (s.narrationSuffixes ≠ [] ∧ (s.narrationSuffixes.any fun f =>
          VALID_AUDIO_FORMATS.contains f.toLower) = false))
    ∧ (ValidationError.noMusic ∈ (validateAssets s).2 ↔ s.musicSuffixes = [])
    ∧ (ValidationError.musicUnsupported ∈ (validateAssets s).2 ↔
        (s.musicSuffixes ≠ [] ∧ (s.musicSuffixes.any fun f =>
          VALID_AUDIO_FORMATS.contains f.toLower) = false))
    ∧ (ValidationError.noImages ∈ (validateAssets s).2 ↔
        s.assetsFiles.filter (fun f => VALID_IMAGE_FORMATS.contains f.toLower) = [])
    ∧ ((validateAssets t).2 ≠ [] → mainRunsPipeline t = false) := by
  rw [validateAssets_snd_of_dirs s ha ho]
  refine ⟨?_, ?_, ?_, ?_, ?_, fun ht => validateAssets_invalid_of_errors t ht⟩ <;>
    simp [List.mem_append, mem_narrationCheck, mem_musicCheck, mem_imageCheck]

/-- Witness for the amended C6 at a state missing its narration file, and
a second state whose validation fails. -/
theorem validateAssets_complete_when_dirs_exist_witness :
    (ValidationError.noNarration ∈
        (validateAssets ⟨true, [], [".mp3"], [".txt"], true⟩).2 ↔
      FsState.narrationSuffixes ⟨true, [], [".mp3"], [".txt"], true⟩ = [])
    ∧ mainRunsPipeline ⟨false, [], [], [], false⟩ = false :=
  ⟨(validateAssets_complete_when_dirs_exist ⟨true, [], [".mp3"], [".txt"], true⟩
      ⟨false, [], [], [], false⟩ rfl rfl).1,
   (validateAssets_complete_when_dirs_exist ⟨true, [], [".mp3"], [".txt"], true⟩
      ⟨false, [], [], [], false⟩ rfl rfl).2.2.2.2.2 (by decide)⟩

/-- An audio track as a total duration plus an amplitude signal.
Modelled from the spec: the audio clip objects come from the external
codec/clip library (out of scope of src/), described in spec sections 1,
4.4 and 6 as decode/mix capability providers. -/
structure AudioClip where
  duration : ℚ
  sample : ℚ → ℚ

/-- Modelled from the spec: `clip.loop(duration=d)` repeats the clip
seamlessly to cover duration `d` (spec 4.4 "loop the music seamlessly to
cover the full video duration"): the sample at `t` is the original
sample at `t` reduced modulo the original duration. -/
def AudioClip.loop (clip : AudioClip) (d : ℚ) : AudioClip :=
  ⟨d, fun t => clip.sample (t - clip.duration * (⌊t / clip.duration⌋ : ℤ))⟩

/-- Modelled from the spec: `clip.subclip(0, d)` trims the clip to the
interval `[0, d)` (spec 4.4 "else trim it to [0, video.duration)"):
samples are unchanged, the duration becomes `d`. -/
def AudioClip.subclip0 (clip : AudioClip) (d : ℚ) : AudioClip :=
  ⟨d, clip.sample⟩

/-- Modelled from the spec: `clip.volumex(k)` scales the amplitude by
`k` (spec 4.4 "attenuate music to 20% of its original amplitude"). -/
def AudioClip.volumex (clip : AudioClip) (k : ℚ) : AudioClip :=
  ⟨clip.duration, fun t => k * clip.sample t⟩

/-- Modelled from the spec: `clip.audio_fadeout(d)` ramps the amplitude
linearly to zero over the final `d` seconds (spec 4.4 "apply a 1-second
fade-out to narration and a 2-second fade-out to music"). -/
def AudioClip.fadeout (clip : AudioClip) (d : ℚ) : AudioClip :=
  ⟨clip.duration, fun t => clip.sample t * min 1 ((clip.duration - t) / d)⟩

/-- Modelled from the spec: mixing two tracks adds them sample-for-sample
(spec 4.4 "additive mix, not replacement"); the result covers the longer
of the two. -/
def AudioClip.mix (a b : AudioClip) : AudioClip :=
  ⟨max a.duration b.duration, fun t => a.sample t + b.sample t⟩

/-- The audio path of `assemble_video` (src/main.py lines 184-195):
loop the background music when it is shorter than the video, else trim
it to the video duration; attenuate it to 20% (`volumex(0.2)`); fade the
narration out over 1 second and the music over 2; mix the two. -/
def finalAudioMix (videoDuration : ℚ) (narration music : AudioClip) : AudioClip :=
  let backgroundMusic :=
    if music.duration < videoDuration then music.loop videoDuration
    else music.subclip0 videoDuration
  let attenuated := backgroundMusic.volumex (1 / 5)
  (narration.fadeout 1).mix (attenuated.fadeout 2)

/-- C7: whatever the narration and music durations, the music track that
enters the mix covers exactly the video duration — looped (samples read
modulo the original music duration) when the music is shorter than the
video, trimmed (samples unchanged) otherwise — and in both cases its
amplitude entering the mix is 20% of the original (scaled further only by
the end-of-track fade), added sample-for-sample to the faded narration. -/
theorem finalAudioMix_loop_trim_attenuate (videoDuration : ℚ)
    (narration music : AudioClip) :
    ((finalAudioMix videoDuration narration music).duration
        = max narration.duration videoDuration)
    ∧ (music.duration < videoDuration →
        ∀ t : ℚ, (finalAudioMix videoDuration narration music).sample t
          = (narration.fadeout 1).sample t
            + (1 / 5 * music.sample (t - music.duration * (⌊t / music.duration⌋ : ℤ)))
              * min 1 ((videoDuration - t) / 2))
    ∧ (videoDuration ≤ music.duration →
        ∀ t : ℚ, (finalAudioMix videoDuration narration music).sample t
          = (narration.fadeout 1).sample t
            + (1 / 5 * music.sample t) * min 1 ((videoDuration - t) / 2)) := by
  refine ⟨?_, ?_, ?_⟩
  · by_cases h : music.duration < videoDuration <;>
      simp [finalAudioMix, AudioClip.mix, AudioClip.fadeout, AudioClip.volumex,
        AudioClip.loop, AudioClip.subclip0, h]
  · intro h t
    simp only [finalAudioMix, if_pos h]
    rfl
  · intro h t
    simp only [finalAudioMix, if_neg (not_lt.mpr h)]
    rfl

/-- Witness for C7: the spec's audio-mix scenario, narration of 10s and
music of 4s (looped), evaluated at t = 3. -/
theorem finalAudioMix_loop_trim_attenuate_witness :
    ((4 : ℚ) < 10)
    ∧ (finalAudioMix 10 ⟨10, fun t => t⟩ ⟨4, fun t => t⟩).sample 3
        = ((⟨10, fun t => t⟩ : AudioClip).fadeout 1).sample 3
          + (1 / 5 * (⟨4, fun t => t⟩ : AudioClip).sample
              (3 - (⟨4, fun t => t⟩ : AudioClip).duration
                * (⌊3 / (⟨4, fun t => t⟩ : AudioClip).duration⌋ : ℤ)))
            * min 1 ((10 - 3) / 2) :=
  ⟨by norm_num,
   (finalAudioMix_loop_trim_attenuate 10 ⟨10, fun t => t⟩ ⟨4, fun t => t⟩).2.1
     (by norm_num) 3⟩

/-- The three aspect-ratio keys of `FORMAT_CONFIGS`
(src/main.py lines 15-19). -/
inductive AspectFormat where
  | sixteenNine
  | nineSixteen
  | square
deriving DecidableEq

/-- The dictionary key string of each format. -/
def formatLabel : AspectFormat → String
  | AspectFormat.sixteenNine => "16:9"
  | AspectFormat.nineSixteen => "9:16"
  | AspectFormat.square => "1:1"

/-- The width/height configuration of `FORMAT_CONFIGS`
(src/main.py lines 15-19). -/
def formatConfig : AspectFormat → ℤ × ℤ
  | AspectFormat.sixteenNine => (1920, 1080)
  | AspectFormat.nineSixteen => (1080, 1920)
  | AspectFormat.square => (1080, 1080)

/-- The iteration order of `FORMAT_CONFIGS.keys()` used by `main`
(src/main.py lines 269-271). -/
def ALL_FORMATS : List AspectFormat :=
  [AspectFormat.sixteenNine, AspectFormat.nineSixteen, AspectFormat.square]

/-- Python `str.replace` for single-character patterns, character by
character (the only use in src/main.py replaces `":"` with `"x"`). -/
def pyReplaceChar (old new : Char) : List Char → List Char
  | [] => []
  | c :: rest => (if c = old then new else c) :: pyReplaceChar old new rest

/-- The deterministic output filename of `export_video`
(src/main.py line 238): `video_{ratio with ":" replaced by "x"}.mp4`. -/
def outputName (fmt : AspectFormat) : String :=
  "video_" ++ String.mk (pyReplaceChar ':' 'x' (formatLabel fmt).data) ++ ".mp4"

/-- A video composition handle.  Modelled from the spec: the clip
objects and their `resize`/`crop` operations belong to the external
clip library (spec sections 1 and 6 treat codecs and clip transforms as
external capability providers); the spec requires `resize` and `crop`
to derive new frames without mutating their input, so they are term
constructors here, and `w`/`h` follow the crop/resize dimensions. -/
inductive VClip where
  | base (w h : ℤ)
  | resize (w h : ℤ) (c : VClip)
  | crop (x1 y1 x2 y2 : ℤ) (c : VClip)
deriving DecidableEq

/-- Current width of a clip: set by `resize`, and `x2 - x1` after `crop`. -/
def VClip.w : VClip → ℤ
  | VClip.base w _ => w
  | VClip.resize w _ _ => w
  | VClip.crop x1 _ x2 _ _ => x2 - x1

/-- Current height of a clip: set by `resize`, and `y2 - y1` after `crop`. -/
def VClip.h : VClip → ℤ
  | VClip.base _ h => h
  | VClip.resize _ h _ => h
  | VClip.crop _ y1 _ y2 _ => y2 - y1

/-- `export_video` (src/main.py lines 202-245): compute the fill
geometry from the clip's current size to the format's configured target
size, resize the clip to the scaled size, and center-crop it to the
target; the rendered artifact is this derived clip. -/
def exportVideo (clip : VClip) (fmt : AspectFormat) : Except PyError VClip :=
  Except.map
    (fun g => VClip.crop g.crop_box.x0 g.crop_box.y0 g.crop_box.x1 g.crop_box.y1
      (VClip.resize g.new_size.1 g.new_size.2 clip))
    (exportGeometry clip.w clip.h (formatConfig fmt).1 (formatConfig fmt).2)

/-- The state seen by the export loop of `main`: the base composition
and the output directory, a write-once-per-name store of rendered files
(later writes to the same name overwrite earlier ones). -/
structure ExportState where
  clip : VClip
  outputs : List (String × Except PyError VClip)

/-- Look up the artifact most recently written under a filename. -/
def findOutput (key : String) :
    List (String × Except PyError VClip) → Option (Except PyError VClip)
  | [] => none
  | (k, v) :: rest => if key = k then some v else findOutput key rest

/-- One `export_video(final_clip, format_ratio)` call: renders from the
(unchanged) base clip and writes the artifact under the format's
filename. -/
def runExport (s : ExportState) (fmt : AspectFormat) : ExportState :=
  ⟨s.clip, (outputName fmt, exportVideo s.clip fmt) :: s.outputs⟩

/-- The export loop of `main` (src/main.py lines 267-271) over an
arbitrary list of requested formats. -/
def runExports (s : ExportState) : List AspectFormat → ExportState
  | [] => s
  | f :: rest => runExports (runExport s f) rest

lemma outputName_injective (f g : AspectFormat) (h : outputName f = outputName g) :
    f = g := by
  cases f <;> cases g <;> first | rfl | exact absurd h (by decide)

lemma runExports_clip (fmts : List AspectFormat) :
    ∀ s, (runExports s fmts).clip = s.clip := by
  induction fmts with
  | nil => intro s; rfl
  | cons f rest ih => intro s; exact (ih (runExport s f)).trans rfl

lemma runExports_findOutput (fmts : List AspectFormat) :
    ∀ (s : ExportState) (f : AspectFormat),
      findOutput (outputName f) (runExports s fmts).outputs
        = if f ∈ fmts then some (exportVideo s.clip f)
          else findOutput (outputName f) s.outputs := by
  induction fmts with
  | nil => intro s f; simp [runExports]
  | cons g rest ih =>
      intro s f
      rw [show runExports s (g :: rest) = runExports (runExport s g) rest from rfl,
        ih (runExport s g) f]
      by_cases hfr : f ∈ rest
      · rw [if_pos hfr, if_pos (List.mem_cons_of_mem g hfr)]
        rfl
      · rw [if_neg hfr]
        by_cases hfg : f = g
        · subst hfg
          rw [if_pos (List.mem_cons_self f rest)]
          simp [runExport, findOutput]
        · rw [if_neg (by simp [List.mem_cons, hfg, hfr])]
          have hne : ¬ outputName f = outputName g :=
            fun h => hfg (outputName_injective f g h)
          simp [runExport, findOutput, hne]

/-- C8: the export loop never mutates the base composition; for every
requested subset of formats, each requested format's stored artifact is
exactly the render of that format from the original base clip, identical
to what it receives when all formats are exported; and formats outside
the subset (their filenames being distinct) are left untouched — so
exports are order-independent and do not affect one another. -/
theorem runExports_independent (clip : VClip)
    (outs : List (String × Except PyError VClip))
    (fmts : List AspectFormat) (f : AspectFormat) (hf : f ∈ fmts) :
    (runExports ⟨clip, outs⟩ fmts).clip = clip
    ∧ findOutput (outputName f) (runExports ⟨clip, outs⟩ fmts).outputs
        = some (exportVideo clip f)
    ∧ findOutput (outputName f) (runExports ⟨clip, outs⟩ fmts).outputs
        = findOutput (outputName f) (runExports ⟨clip, outs⟩ ALL_FORMATS).outputs
    ∧ (∀ g : AspectFormat, g ∉ fmts →
        findOutput (outputName g) (runExports ⟨clip, outs⟩ fmts).outputs
          = findOutput (outputName g) outs) := by
  have hall : f ∈ ALL_FORMATS := by cases f <;> simp [ALL_FORMATS]
  refine ⟨runExports_clip fmts _, ?_, ?_, ?_⟩
  · rw [runExports_findOutput fmts _ f, if_pos hf]
  · rw [runExports_findOutput fmts _ f, if_pos hf,
      runExports_findOutput ALL_FORMATS _ f, if_pos hall]
  · intro g hg
    rw [runExports_findOutput fmts _ g, if_neg hg]

/-- Witness for C8: exporting only the 1:1 format from a 1920×1080 base
stores the same artifact the full three-format run stores under
`video_1x1.mp4`. -/
theorem runExports_independent_witness :
    AspectFormat.square ∈ [AspectFormat.square]
    ∧ findOutput (outputName AspectFormat.square)
        (runExports ⟨VClip.base 1920 1080, []⟩ [AspectFormat.square]).outputs
        = some (exportVideo (VClip.base 1920 1080) AspectFormat.square)
    ∧ findOutput (outputName AspectFormat.square)
        (runExports ⟨VClip.base 1920 1080, []⟩ [AspectFormat.square]).outputs
        = findOutput (outputName AspectFormat.square)
            (runExports ⟨VClip.base 1920 1080, []⟩ ALL_FORMATS).outputs :=
  ⟨by simp,
   (runExports_independent (VClip.base 1920 1080) [] [AspectFormat.square]
      AspectFormat.square (by simp)).2.1,
   (runExports_independent (VClip.base 1920 1080) [] [AspectFormat.square]
      AspectFormat.square (by simp)).2.2.1⟩
